import Mathlib

/-!
Verification of the two SageMaker inference entry-point scripts in
`Pytorch BYOM from NGC`: `transform_script.py` (local weights file) and
`transform_script_hub.py` (torch.hub fetch).  The scripts are shallowly
embedded: byte payloads are abstract token streams (`List Nat`), the
framework serializer (`torch.save` / `torch.load`, external library code)
is modelled as an explicit invertible encoding, the filesystem as a partial
map from paths to bytes, and `torch.hub.load` (external library code) as a
function of an explicit hub environment.
-/

/-- Byte payloads, modelled as abstract token streams. -/
abbrev Bytes := List Nat

/-- A tensor: a shape together with a flat list of integer elements. -/
structure Tensor where
  shape : List Nat
  data : List Int
deriving DecidableEq, Repr

/-- A deserialized model object: either the contents of a checkpoint file,
or a hub fetch recording repository, architecture, precision and device. -/
inductive Model where
  | fromFile (checkpoint : Bytes)
  | fromHub (repo arch model_math map_location : String)
deriving DecidableEq, Repr

/-- Python-level results of the handler functions: the `None` object,
a tensor, or a model. -/
inductive PyValue where
  | none
  | tensor (t : Tensor)
  | model (m : Model)
deriving DecidableEq, Repr

/-- The error classes the scripts can raise. -/
inductive PyError where
  | syntaxError
  | fileNotFoundError
  | unpicklingError
  | networkError
  | hubEntryNotFound
  | deviceError (device : String)
deriving DecidableEq, Repr

/-- Encoding of one integer element: a sign token followed by the magnitude. -/
def encodeInt (i : Int) : List Nat :=
  if i < 0 then [1, i.natAbs] else [0, i.natAbs]

/-- Decoding of one integer element from the front of a stream. -/
def decodeInt : List Nat → Option (Int × List Nat)
  | s :: m :: rest => some (if s = 1 then -(m : Int) else (m : Int), rest)
  | _ => none

/-- Encoding of a list of integer elements, one after the other. -/
def encodeInts : List Int → List Nat
  | [] => []
  | i :: is => encodeInt i ++ encodeInts is

/-- Decoding of a counted list of naturals from the front of a stream. -/
def decodeNats : Nat → List Nat → Option (List Nat × List Nat)
  | 0, b => some ([], b)
  | Nat.succ n, x :: b =>
      match decodeNats n b with
      | some (l, r) => some (x :: l, r)
      | none => none
  | Nat.succ _, [] => none

/-- Decoding of a counted list of integer elements from the front of a stream. -/
def decodeInts : Nat → List Nat → Option (List Int × List Nat)
  | 0, b => some ([], b)
  | Nat.succ n, b =>
      match decodeInt b with
      | some (i, r) =>
          match decodeInts n r with
          | some (l, r2) => some (i :: l, r2)
          | none => none
      | none => none

/-- Modelled from the spec: the framework serializer (`torch.save`, external
library code) producing the binary pickle of a tensor: a tag, the counted
shape, then the counted elements. -/
def torch_save (t : Tensor) : Bytes :=
  80 :: t.shape.length :: (t.shape ++ t.data.length :: encodeInts t.data)

/-- Modelled from the spec: the framework deserializer (`torch.load` on an
in-memory byte stream, external library code).  Tag 80 introduces a pickled
tensor (the inverse of `torch_save`), tag 77 a pickled model checkpoint;
anything else fails with an unpickling error.  `BytesIO` wraps a byte string
into a stream that `torch.load` reads back verbatim, so the wrapper is the
identity in this model and the functions below apply `torch_load_bytes`
directly to the request body. -/
def torch_load_bytes (b : Bytes) : Except PyError PyValue :=
  match b with
  | [] => Except.error PyError.unpicklingError
  | m :: rest =>
    if m = 80 then
      match rest with
      | nShape :: rest1 =>
        match decodeNats nShape rest1 with
        | some (shape, nData :: rest2) =>
            match decodeInts nData rest2 with
            | some (data, []) => Except.ok (PyValue.tensor ⟨shape, data⟩)
            | _ => Except.error PyError.unpicklingError
        | _ => Except.error PyError.unpicklingError
      | [] => Except.error PyError.unpicklingError
    else if m = 77 then Except.ok (PyValue.model (Model.fromFile rest))
    else Except.error PyError.unpicklingError

/-- A filesystem: a partial map from paths to file contents. -/
abbrev FileSystem := String → Option Bytes

/-- Library function `os.path.join` for the two-argument case used by the
script: an absolute second component wins, otherwise the components are
joined with a single separator. -/
def os_path_join (a b : String) : String :=
  if b.data.head? = some '/' then b
  else if a.data = [] ∨ a.data.getLast? = some '/' then a ++ b
  else a ++ "/" ++ b

/-- Modelled from the spec: `torch.load` on a filesystem path (external
library code): a missing path raises `FileNotFoundError`, otherwise the
file's bytes are deserialized. -/
def torch_load_file (fs : FileSystem) (path : String) : Except PyError PyValue :=
  match fs path with
  | Option.none => Except.error PyError.fileNotFoundError
  | some b => torch_load_bytes b

/-- The single-quote character of the Python source text. -/
def pyQuote : String := String.mk [Char.ofNat 39]

instance : DecidableEq (Except PyError PyValue) := fun x y =>
  match x, y with
  | Except.error a, Except.error b =>
    if h : a = b then Decidable.isTrue (congrArg Except.error h)
    else Decidable.isFalse (fun c => h (Except.error.inj c))
  | Except.ok a, Except.ok b =>
    if h : a = b then Decidable.isTrue (congrArg Except.ok h)
    else Decidable.isFalse (fun c => h (Except.ok.inj c))
  | Except.error _, Except.ok _ => Decidable.isFalse (fun c => Except.noConfusion c)
  | Except.ok _, Except.error _ => Decidable.isFalse (fun c => Except.noConfusion c)

/-- Net parenthesis balance of one line of source text. -/
def parenBalance (s : String) : Int :=
  s.data.foldl (fun acc c => if c = '(' then acc + 1 else if c = ')' then acc - 1 else acc) 0

namespace TransformScript

/-- Lines 7 to 9 of `transform_script.py`, verbatim: the complete definition
of `model_fn`.  The `torch.load(` call on the middle line is never closed. -/
def model_fn_src : List String :=
  [ "def model_fn(model_dir):",
    "    model = torch.load(os.path.join(model_dir, " ++ pyQuote ++ "nvidia_ssdpyt_fp32_190826.pt" ++ pyQuote ++ ")",
    "    return model" ]

/-- Whether the `def model_fn` statement of `transform_script.py` is
syntactically well formed.  CPython compiles a module in full before running
any of it; a parenthesis that is still open when the statement (and, here,
the module) ends is a compile-time `SyntaxError`, so a nonzero net balance
over these lines means the module never imports and `model_fn` can never be
called.  Balanced parentheses are only a necessary condition for compiling,
but they are the condition this source violates. -/
def model_fn_compiles : Bool := (model_fn_src.map parenBalance).sum == 0

/-- `model_fn` of `transform_script.py`.  Any invocation first requires the
module (in particular this very definition) to compile; since it does not,
every call raises `SyntaxError` before the body — the intended
`torch.load` of the fixed weights file `nvidia_ssdpyt_fp32_190826.pt`
inside `model_dir` — can perform any file access. -/
def model_fn (fs : FileSystem) (model_dir : String) : Except PyError PyValue :=
  if model_fn_compiles then
    torch_load_file fs (os_path_join model_dir "nvidia_ssdpyt_fp32_190826.pt")
  else
    Except.error PyError.syntaxError

/-- `input_fn` of `transform_script.py` (lines 11 to 18; this definition is
itself syntactically well formed, and is embedded as written): on content
type `application/python-pickle` it returns `torch.load(BytesIO(request_body))`;
on any other content type the body is only the comment and `pass`, so the
function falls off its end and returns Python `None` without raising. -/
def input_fn (request_body : Bytes) (request_content_type : String) : Except PyError PyValue :=
  if request_content_type = "application/python-pickle" then
    torch_load_bytes request_body
  else
    Except.ok PyValue.none

end TransformScript

/-- The hub environment `torch.hub.load` runs against: whether the network
fetch can succeed, which (repository, entry) pairs exist, and which compute
devices are available for `map_location`. -/
structure HubEnv where
  networkOk : Bool
  entries : List (String × String)
  availableDevices : List String
deriving DecidableEq, Repr

/-- Modelled from the spec: `torch.hub.load` (external library code) fetches
a named architecture from a remote model hub, requesting a numeric precision
mode and a target device placement.  It fails if the network fetch fails, if
the repository entry is unknown, or if the requested device is unavailable
(a device-unavailable error naming the device). -/
def torch_hub_load (env : HubEnv) (repo entry model_math map_location : String) :
    Except PyError PyValue :=
  if env.networkOk = false then Except.error PyError.networkError
  else if (repo, entry) ∈ env.entries then
    if map_location ∈ env.availableDevices then
      Except.ok (PyValue.model (Model.fromHub repo entry model_math map_location))
    else Except.error (PyError.deviceError map_location)
  else Except.error PyError.hubEntryNotFound

namespace TransformScriptHub

/-- `model_fn` of `transform_script_hub.py`: a hub fetch with every argument
hard-coded — repository `NVIDIA/DeepLearningExamples:torchhub`, entry
`nvidia_ssd`, `model_math='fp32'`, `map_location='gpu'`.  The `model_dir`
parameter does not occur in the body. -/
def model_fn (env : HubEnv) (model_dir : String) : Except PyError PyValue :=
  torch_hub_load env "NVIDIA/DeepLearningExamples:torchhub" "nvidia_ssd" "fp32" "gpu"

/-- `input_fn` of `transform_script_hub.py`: unconditionally returns
`torch.load(BytesIO(request_body))`; the `request_content_type` parameter
does not occur in the body. -/
def input_fn (request_body : Bytes) (request_content_type : String) : Except PyError PyValue :=
  torch_load_bytes request_body

end TransformScriptHub

/-- The ambient world an invocation runs in: the filesystem and the hub
environment.  Neither script defines any module-level mutable state (the
module bodies are imports and `def`s only) and neither handler writes to
the world, so the world is a parameter, never an effect. -/
structure World where
  fs : FileSystem
  hub : HubEnv

/-- One invocation of one of the four handler functions. -/
inductive Invocation where
  | localModelFn (model_dir : String)
  | localInputFn (request_body : Bytes) (request_content_type : String)
  | hubModelFn (model_dir : String)
  | hubInputFn (request_body : Bytes) (request_content_type : String)

/-- The result of a single invocation against a world. -/
def evalInv (w : World) : Invocation → Except PyError PyValue
  | Invocation.localModelFn d => TransformScript.model_fn w.fs d
  | Invocation.localInputFn b ct => TransformScript.input_fn b ct
  | Invocation.hubModelFn d => TransformScriptHub.model_fn w.hub d
  | Invocation.hubInputFn b ct => TransformScriptHub.input_fn b ct

/-- One step of a sequence of invocations: the result, and the world the
next invocation sees.  No handler mutates any shared state, so the world
passes through unchanged. -/
def step (w : World) (i : Invocation) : Except PyError PyValue × World :=
  (evalInv w i, w)

/-- Running a sequence of invocations, threading the world through. -/
def runTrace (w : World) : List Invocation → List (Except PyError PyValue)
  | [] => []
  | i :: rest => (step w i).1 :: runTrace (step w i).2 rest

/-- A filesystem holding a (valid, model-checkpoint) weights file at the
path the local loader resolves. -/
def fsWithWeights : FileSystem := fun p =>
  if p = "/opt/ml/model/nvidia_ssdpyt_fp32_190826.pt" then some [77, 5] else Option.none

/-- The empty filesystem: no weights file anywhere. -/
def emptyFS : FileSystem := fun _ => Option.none

/-- A hub environment where the fetch of `nvidia_ssd` can fully succeed,
with device `gpu` available. -/
def envGood : HubEnv :=
  { networkOk := true,
    entries := [("NVIDIA/DeepLearningExamples:torchhub", "nvidia_ssd")],
    availableDevices := ["gpu", "cpu"] }

/-- A hub environment identical to `envGood` except device `gpu` is not
available. -/
def envNoGpu : HubEnv :=
  { networkOk := true,
    entries := [("NVIDIA/DeepLearningExamples:torchhub", "nvidia_ssd")],
    availableDevices := ["cpu"] }

lemma encodeInt_of_neg (i : Int) (h : i < 0) : encodeInt i = [1, i.natAbs] := by
  simp [encodeInt, h]

lemma encodeInt_of_nonneg (i : Int) (h : 0 ≤ i) : encodeInt i = [0, i.natAbs] := by
  simp [encodeInt, not_lt.mpr h]

lemma decodeInt_encodeInt (i : Int) (rest : List Nat) :
    decodeInt (encodeInt i ++ rest) = some (i, rest) := by
  by_cases h : i < 0
  · rw [encodeInt_of_neg i h]
    simp only [List.cons_append, List.nil_append, decodeInt, reduceIte,
      Option.some.injEq, Prod.mk.injEq, eq_self_iff_true, and_true]
    omega
  · rw [encodeInt_of_nonneg i (not_lt.mp h)]
    simp only [List.cons_append, List.nil_append, decodeInt, reduceIte,
      Option.some.injEq, Prod.mk.injEq, eq_self_iff_true, and_true]
    omega

lemma decodeNats_append (l rest : List Nat) :
    decodeNats l.length (l ++ rest) = some (l, rest) := by
  induction l with
  | nil => rfl
  | cons x xs ih => simp [decodeNats, ih]

lemma decodeInts_append (l : List Int) (rest : List Nat) :
    decodeInts l.length (encodeInts l ++ rest) = some (l, rest) := by
  induction l with
  | nil => rfl
  | cons i is ih =>
      simp [decodeInts, encodeInts, List.append_assoc, decodeInt_encodeInt, ih]

lemma torch_load_bytes_torch_save (t : Tensor) :
    torch_load_bytes (torch_save t) = Except.ok (PyValue.tensor t) := by
  have hs : decodeNats t.shape.length (t.shape ++ t.data.length :: encodeInts t.data) =
      some (t.shape, t.data.length :: encodeInts t.data) := decodeNats_append _ _
  have hd : decodeInts t.data.length (encodeInts t.data) = some (t.data, []) := by
    have := decodeInts_append t.data []
    simpa using this
  simp [torch_save, torch_load_bytes, hs, hd]

lemma model_fn_compiles_false : TransformScript.model_fn_compiles = false := by decide

/-- C1: the local-file loader cannot return a model even from a directory
that does contain the expected weights file: the module fails to compile
(the `torch.load(` of line 8 is never closed), so `model_fn` raises
`SyntaxError` instead — and that error is not of the file-not-found class. -/
theorem C1_model_fn_cannot_load_present_weights :
    (fsWithWeights (os_path_join "/opt/ml/model" "nvidia_ssdpyt_fp32_190826.pt")).isSome = true
    ∧ TransformScript.model_fn fsWithWeights "/opt/ml/model" =
        Except.error PyError.syntaxError
    ∧ PyError.syntaxError ≠ PyError.fileNotFoundError := by
  refine ⟨by decide, ?_, by decide⟩
  simp [TransformScript.model_fn, model_fn_compiles_false]

/-- C2: when the content type is exactly `application/python-pickle`,
`input_fn` of `transform_script.py` applies the framework deserializer to
the request body, and whenever that deserialization yields a tensor,
`input_fn` returns that tensor. -/
theorem C2_input_fn_pickle_returns_deserialized_tensor
    (request_body : Bytes) (request_content_type : String) (t : Tensor)
    (hct : request_content_type = "application/python-pickle")
    (hdec : torch_load_bytes request_body = Except.ok (PyValue.tensor t)) :
    TransformScript.input_fn request_body request_content_type =
      Except.ok (PyValue.tensor t) := by
  simp [TransformScript.input_fn, hct, hdec]

theorem C2_witness :
    TransformScript.input_fn (torch_save ⟨[2], [3, -4]⟩) "application/python-pickle" =
      Except.ok (PyValue.tensor ⟨[2], [3, -4]⟩) :=
  C2_input_fn_pickle_returns_deserialized_tensor _ _ _ rfl (by decide)

/-- C3: round-trip law — serializing any tensor with the framework
serializer and handing the bytes to the decoder with the recognized content
type returns a tensor element-wise equal (same shape, same elements) to the
original. -/
theorem C3_round_trip (t : Tensor) :
    ∃ t2 : Tensor,
      TransformScript.input_fn (torch_save t) "application/python-pickle" =
        Except.ok (PyValue.tensor t2)
      ∧ t2.shape = t.shape ∧ t2.data = t.data :=
  ⟨t, by simp [TransformScript.input_fn, torch_load_bytes_torch_save], rfl, rfl⟩

/-- C4: for every content type other than `application/python-pickle`,
`input_fn` of `transform_script.py` silently no-ops: it raises no error and
returns Python `None`, whatever the request body holds, never touching the
deserializer. -/
theorem C4_input_fn_other_content_type_noop
    (request_body : Bytes) (request_content_type : String)
    (h : request_content_type ≠ "application/python-pickle") :
    TransformScript.input_fn request_body request_content_type =
      Except.ok PyValue.none := by
  simp [TransformScript.input_fn, h]

theorem C4_witness :
    TransformScript.input_fn [1, 2, 3] "text/csv" = Except.ok PyValue.none :=
  C4_input_fn_other_content_type_noop _ _ (by decide)

/-- C5: the hub-variant decoder ignores the content type entirely: for any
request body and any two content-type strings, `input_fn` of
`transform_script_hub.py` produces the same result. -/
theorem C5_hub_input_fn_ignores_content_type
    (request_body : Bytes) (ct1 ct2 : String) :
    TransformScriptHub.input_fn request_body ct1 =
      TransformScriptHub.input_fn request_body ct2 := rfl

/-- C6: with the expected weights file absent, the local loader does fail —
but with `SyntaxError` raised while compiling the module, not with the
file-not-found class of error the claim states: the unclosed parenthesis
pre-empts every file access. -/
theorem C6_missing_weights_error_is_not_file_not_found :
    emptyFS (os_path_join "/opt/ml/model" "nvidia_ssdpyt_fp32_190826.pt") = Option.none
    ∧ TransformScript.model_fn emptyFS "/opt/ml/model" = Except.error PyError.syntaxError
    ∧ PyError.syntaxError ≠ PyError.fileNotFoundError := by
  refine ⟨rfl, ?_, by decide⟩
  simp [TransformScript.model_fn, model_fn_compiles_false]

/-- C7: the hub loader requests entry `nvidia_ssd` from repository
`NVIDIA/DeepLearningExamples:torchhub` at precision `fp32` with device
placement `gpu`; when the network is up and the entry exists, it returns a
model instance exactly when device `gpu` is available, and fails with a
device-unavailable error naming `gpu` when it is not. -/
theorem C7_hub_model_fn_device (env : HubEnv) (dir : String)
    (hnet : env.networkOk = true)
    (harch : ("NVIDIA/DeepLearningExamples:torchhub", "nvidia_ssd") ∈ env.entries) :
    ("gpu" ∈ env.availableDevices →
      TransformScriptHub.model_fn env dir =
        Except.ok (PyValue.model
          (Model.fromHub "NVIDIA/DeepLearningExamples:torchhub" "nvidia_ssd" "fp32" "gpu")))
    ∧ ("gpu" ∉ env.availableDevices →
      TransformScriptHub.model_fn env dir =
        Except.error (PyError.deviceError "gpu")) := by
  constructor
  · intro hdev
    simp [TransformScriptHub.model_fn, torch_hub_load, hnet, harch, hdev]
  · intro hdev
    simp [TransformScriptHub.model_fn, torch_hub_load, hnet, harch, hdev]

theorem C7_witness :
    TransformScriptHub.model_fn envGood "/opt/ml/model" =
      Except.ok (PyValue.model
        (Model.fromHub "NVIDIA/DeepLearningExamples:torchhub" "nvidia_ssd" "fp32" "gpu"))
    ∧ TransformScriptHub.model_fn envNoGpu "/opt/ml/model" =
        Except.error (PyError.deviceError "gpu") :=
  ⟨(C7_hub_model_fn_device envGood "/opt/ml/model" rfl (by decide)).1 (by decide),
   (C7_hub_model_fn_device envNoGpu "/opt/ml/model" rfl (by decide)).2 (by decide)⟩

/-- C8: the `def model_fn` statement of `transform_script.py` has net
parenthesis balance one (an opened call that never closes), so the module
cannot compile, and every invocation of `model_fn` — on any filesystem and
any directory argument — fails with `SyntaxError` before any file access. -/
theorem C8_model_fn_source_unbalanced_never_returns :
    (TransformScript.model_fn_src.map parenBalance).sum = 1
    ∧ ∀ (fs : FileSystem) (model_dir : String),
        TransformScript.model_fn fs model_dir = Except.error PyError.syntaxError := by
  refine ⟨by decide, fun fs model_dir => ?_⟩
  simp [TransformScript.model_fn, model_fn_compiles_false]

/-- C9: the hub loader ignores its directory argument entirely: for any two
directory-path arguments (in the same environment) it performs the same
fixed hub fetch and produces the same result. -/
theorem C9_hub_model_fn_ignores_dir (env : HubEnv) (d1 d2 : String) :
    TransformScriptHub.model_fn env d1 = TransformScriptHub.model_fn env d2 := rfl

/-- C10: the handlers are stateless and deterministic across invocations:
running any sequence of invocations yields, for each one, exactly the value
it has as a pure function of the initial world and its own arguments — so
equal calls give equal results and no call perturbs a later one. -/
theorem C10_stateless_trace (w : World) (trace : List Invocation) :
    runTrace w trace = trace.map (evalInv w) := by
  induction trace with
  | nil => rfl
  | cons i rest ih => simp [runTrace, step, ih]
